import Mathlib

/-!
# Verification of the `sql_alchemy` example repository

A shallow embedding of the repository's relational data model
(`models/post.py`, `models/comment.py`, and the `User`/`Tag` entities),
the CRUD helper layer (`examples/crud_operations.py`), and the
schema-export utilities (`utils/schema_dump.py`,
`utils/validate_and_dump.py`, `utils/pg_dump_helper.py`).

The database is modelled as explicit lists of rows with per-table
id counters; the database engine's declared behaviour (primary-key
generation, unique and foreign-key constraint checks at commit time,
`ON DELETE CASCADE` propagation declared on the foreign keys, and the
`onupdate` refresh of `updated_at`) is part of the state-transition
functions, since the CRUD layer delegates those to the engine.
Timestamps are modelled as natural-number ticks supplied by the caller
(the `datetime.utcnow` clock); generated ids start at 1, so an id of 0
plays the role of NULL / never-generated.
-/

namespace SqlAlchemy

/-- `IntegrityError` raised by the storage engine at commit time
(duplicate unique key or foreign-key violation); the CRUD layer in
`crud_operations.py` neither pre-validates nor catches it. -/
inductive DBError where
  | integrityError
deriving Repr, DecidableEq

/-- Modelled from the spec: `models/user.py` is not present under `src/`
(only its importers and tests are).  Fields follow §3 of the spec: unique
numeric identifier, unique username, unique email, opaque password hash,
optional full name and bio, `is_active` (default true), `is_superuser`
(default false), creation/update timestamps. -/
structure User where
  id : Nat
  username : String
  email : String
  hashed_password : String
  full_name : Option String
  bio : Option String
  is_active : Bool
  is_superuser : Bool
  created_at : Nat
  updated_at : Nat
deriving Repr, DecidableEq

/-- `models/post.py`: the `Post` row. -/
structure Post where
  id : Nat
  title : String
  slug : Option String
  content : String
  summary : Option String
  is_published : Bool
  published_at : Option Nat
  view_count : Int
  author_id : Nat
  created_at : Nat
  updated_at : Nat
deriving Repr, DecidableEq

/-- `models/post.py`: the `Tag` row (only a creation timestamp, no
update timestamp). -/
structure Tag where
  id : Nat
  name : String
  slug : Option String
  description : Option String
  created_at : Nat
deriving Repr, DecidableEq

/-- `models/comment.py`: the `Comment` row, with a nullable
self-referential `parent_id`. -/
structure Comment where
  id : Nat
  content : String
  is_approved : Bool
  author_id : Nat
  post_id : Nat
  parent_id : Option Nat
  created_at : Nat
  updated_at : Nat
deriving Repr, DecidableEq

/-- The database state: one list of rows per table, the `post_tags`
association table (`models/post.py`), and the engine's per-table
id sequences. -/
structure DB where
  users : List User
  posts : List Post
  tags : List Tag
  comments : List Comment
  post_tags : List (Nat × Nat)
  nextUserId : Nat
  nextPostId : Nat
  nextTagId : Nat
  nextCommentId : Nat
deriving Repr, DecidableEq

/-- The empty database, with every id sequence starting at 1 (as the
engine's sequences do). -/
def DB.empty : DB :=
  { users := [], posts := [], tags := [], comments := [], post_tags := []
    nextUserId := 1, nextPostId := 1, nextTagId := 1, nextCommentId := 1 }

/-- Well-formedness maintained by the engine: row ids are unique per
table and below the table's id sequence, and the sequences start at 1. -/
def DB.wf (db : DB) : Prop :=
  (db.users.map User.id).Nodup ∧
  (db.posts.map Post.id).Nodup ∧
  (db.tags.map Tag.id).Nodup ∧
  (db.comments.map Comment.id).Nodup ∧
  (∀ u ∈ db.users, u.id < db.nextUserId) ∧
  (∀ p ∈ db.posts, p.id < db.nextPostId) ∧
  (∀ t ∈ db.tags, t.id < db.nextTagId) ∧
  (∀ c ∈ db.comments, c.id < db.nextCommentId) ∧
  1 ≤ db.nextUserId ∧ 1 ≤ db.nextPostId ∧ 1 ≤ db.nextTagId ∧
  1 ≤ db.nextCommentId

instance (db : DB) : Decidable db.wf := by
  unfold DB.wf; infer_instance

/-! ## Lookups (`get_*` in `crud_operations.py`)

`db.query(X).filter(X.id == i).first()` is the first row whose id
matches, or absent. -/

/-- `UserCRUD.get_user`. -/
def get_user (db : DB) (user_id : Nat) : Option User :=
  db.users.find? (fun u => u.id == user_id)

/-- `UserCRUD.get_user_by_email`. -/
def get_user_by_email (db : DB) (email : String) : Option User :=
  db.users.find? (fun u => u.email == email)

/-- `PostCRUD.get_post`. -/
def get_post (db : DB) (post_id : Nat) : Option Post :=
  db.posts.find? (fun p => p.id == post_id)

/-- `TagCRUD.get_tag`. -/
def get_tag (db : DB) (tag_id : Nat) : Option Tag :=
  db.tags.find? (fun t => t.id == tag_id)

/-- `CommentCRUD.get_comment`. -/
def get_comment (db : DB) (comment_id : Nat) : Option Comment :=
  db.comments.find? (fun c => c.id == comment_id)

/-! ## Creation (`create_*` in `crud_operations.py`)

Each `create_*` constructs the row from its arguments (optional columns
come from `**kwargs`, column defaults from the model declarations),
then `db.add` / `db.commit` / `db.refresh`.  The commit is where the
engine assigns the primary key, applies column defaults, and checks the
unique and foreign-key constraints declared in the models; a violation
surfaces as `DBError.integrityError`, uncaught by this layer. -/

/-- The `**kwargs` accepted by `UserCRUD.create_user` beyond the three
required arguments: the optional and defaultable `User` columns. -/
structure UserKwargs where
  full_name : Option String := none
  bio : Option String := none
  is_active : Option Bool := none
  is_superuser : Option Bool := none
deriving Repr, DecidableEq

/-- Commit-time constraint check for a new `User` row: `username` and
`email` are declared unique. -/
def userInsertViolation (db : DB) (u : User) : Bool :=
  db.users.any (fun v => v.username == u.username || v.email == u.email)

/-- The `User` row constructed by `UserCRUD.create_user` as the engine
commits it: supplied fields, generated id, declared defaults. -/
def mkUserRow (db : DB) (now : Nat) (username email password : String)
    (kw : UserKwargs) : User :=
  { id := db.nextUserId
    username := username
    email := email
    hashed_password := password
    full_name := kw.full_name
    bio := kw.bio
    is_active := kw.is_active.getD true
    is_superuser := kw.is_superuser.getD false
    created_at := now
    updated_at := now }

/-- `UserCRUD.create_user`: build the row, add, commit, refresh, return.
`now` is the `datetime.utcnow` tick at commit. -/
def create_user (db : DB) (now : Nat) (username email password : String)
    (kw : UserKwargs) : Except DBError (User × DB) :=
  let u : User := mkUserRow db now username email password kw
  if userInsertViolation db u then .error .integrityError
  else .ok (u, { db with users := db.users ++ [u], nextUserId := db.nextUserId + 1 })

/-- The `**kwargs` accepted by `PostCRUD.create_post` beyond the three
required arguments: the optional and defaultable `Post` columns. -/
structure PostKwargs where
  slug : Option String := none
  summary : Option String := none
  is_published : Option Bool := none
  published_at : Option Nat := none
  view_count : Option Int := none
deriving Repr, DecidableEq

/-- Commit-time constraint check for a new `Post` row: `slug` is unique
when set, and `author_id` must reference an existing user. -/
def postInsertViolation (db : DB) (p : Post) : Bool :=
  (match p.slug with
   | some s => db.posts.any (fun q => q.slug == some s)
   | none => false) ||
  !(db.users.any (fun u => u.id == p.author_id))

/-- `PostCRUD.create_post`. -/
def create_post (db : DB) (now : Nat) (title content : String)
    (author_id : Nat) (kw : PostKwargs) : Except DBError (Post × DB) :=
  let p : Post :=
    { id := db.nextPostId
      title := title
      slug := kw.slug
      content := content
      summary := kw.summary
      is_published := kw.is_published.getD false
      published_at := kw.published_at
      view_count := kw.view_count.getD 0
      author_id := author_id
      created_at := now
      updated_at := now }
  if postInsertViolation db p then .error .integrityError
  else .ok (p, { db with posts := db.posts ++ [p], nextPostId := db.nextPostId + 1 })

/-- The `**kwargs` accepted by `TagCRUD.create_tag` beyond the required
`name`: the optional `Tag` columns. -/
structure TagKwargs where
  slug : Option String := none
  description : Option String := none
deriving Repr, DecidableEq

/-- Commit-time constraint check for a new `Tag` row: `name` is unique,
`slug` is unique when set. -/
def tagInsertViolation (db : DB) (t : Tag) : Bool :=
  db.tags.any (fun s => s.name == t.name ||
    (t.slug.isSome && s.slug == t.slug))

/-- `TagCRUD.create_tag`. -/
def create_tag (db : DB) (now : Nat) (name : String) (kw : TagKwargs) :
    Except DBError (Tag × DB) :=
  let t : Tag :=
    { id := db.nextTagId
      name := name
      slug := kw.slug
      description := kw.description
      created_at := now }
  if tagInsertViolation db t then .error .integrityError
  else .ok (t, { db with tags := db.tags ++ [t], nextTagId := db.nextTagId + 1 })

/-- Commit-time constraint check for a new `Comment` row: `author_id`,
`post_id` and a present `parent_id` must reference existing rows. -/
def commentInsertViolation (db : DB) (c : Comment) : Bool :=
  !(db.users.any (fun u => u.id == c.author_id)) ||
  !(db.posts.any (fun p => p.id == c.post_id)) ||
  (match c.parent_id with
   | some pid => !(db.comments.any (fun d => d.id == pid))
   | none => false)

/-- `CommentCRUD.create_comment` (no `**kwargs`: `is_approved` always
takes its declared default `true`). -/
def create_comment (db : DB) (now : Nat) (content : String)
    (author_id post_id : Nat) (parent_id : Option Nat) :
    Except DBError (Comment × DB) :=
  let c : Comment :=
    { id := db.nextCommentId
      content := content
      is_approved := true
      author_id := author_id
      post_id := post_id
      parent_id := parent_id
      created_at := now
      updated_at := now }
  if commentInsertViolation db c then .error .integrityError
  else .ok (c, { db with comments := db.comments ++ [c],
                         nextCommentId := db.nextCommentId + 1 })

/-! ## Update (`update_*` in `crud_operations.py`)

`update_post` looks the row up; if absent it returns `None` with no
side effect; otherwise it `setattr`s each supplied key, commits
(the engine re-checks constraints and fires `onupdate=datetime.utcnow`
on `updated_at` when the row was modified), refreshes and returns. -/

/-- The `**kwargs` accepted by `PostCRUD.update_post`: a partial patch
over the mutable `Post` columns (the typed form of the
`setattr(post, key, value)` loop). -/
structure PostPatch where
  title : Option String := none
  slug : Option (Option String) := none
  content : Option String := none
  summary : Option (Option String) := none
  is_published : Option Bool := none
  published_at : Option (Option Nat) := none
  view_count : Option Int := none
  author_id : Option Nat := none
deriving Repr, DecidableEq

/-- Whether the patch supplies no field at all (an empty `**kwargs`:
no attribute set, so no UPDATE is issued and `onupdate` does not fire). -/
def PostPatch.isEmpty (k : PostPatch) : Bool :=
  k.title.isNone && k.slug.isNone && k.content.isNone && k.summary.isNone &&
  k.is_published.isNone && k.published_at.isNone && k.view_count.isNone &&
  k.author_id.isNone

/-- The `setattr` loop: overwrite exactly the supplied columns. -/
def applyPostPatch (p : Post) (k : PostPatch) : Post :=
  { p with
    title := k.title.getD p.title
    slug := k.slug.getD p.slug
    content := k.content.getD p.content
    summary := k.summary.getD p.summary
    is_published := k.is_published.getD p.is_published
    published_at := k.published_at.getD p.published_at
    view_count := k.view_count.getD p.view_count
    author_id := k.author_id.getD p.author_id }

/-- Commit-time constraint check for an updated `Post` row: `slug`
unique against the other posts, `author_id` a valid reference. -/
def postUpdateViolation (db : DB) (p : Post) : Bool :=
  (match p.slug with
   | some s => db.posts.any (fun q => q.id != p.id && q.slug == some s)
   | none => false) ||
  !(db.users.any (fun u => u.id == p.author_id))

/-- `PostCRUD.update_post`. -/
def update_post (db : DB) (now : Nat) (post_id : Nat) (k : PostPatch) :
    Except DBError (Option Post × DB) :=
  match get_post db post_id with
  | none => .ok (none, db)
  | some p =>
    let p' := applyPostPatch p k
    let p'' := if k.isEmpty then p' else { p' with updated_at := now }
    if postUpdateViolation db p'' then .error .integrityError
    else .ok (some p'',
      { db with posts := db.posts.map (fun q => if q.id == post_id then p'' else q) })

/-! ## Deletion (`delete_*` in `crud_operations.py`)

`db.delete` plus commit; the engine then applies the cascades declared
on the schema: `posts.author_id`, `comments.author_id`,
`comments.post_id`, `comments.parent_id` and both `post_tags` columns
all carry `ondelete='CASCADE'` (`models/post.py`, `models/comment.py`),
and `Post.comments` carries `cascade="all, delete-orphan"`.  Comment
deletion therefore closes transitively over `parent_id`. -/

/-- One step of the `parent_id` cascade: a comment whose parent is
already condemned is condemned too. -/
def cascadeStep (comments : List Comment) (dead : List Nat) : List Nat :=
  dead ++ (comments.filter (fun c =>
    !(dead.contains c.id) &&
    (match c.parent_id with
     | some pid => dead.contains pid
     | none => false))).map Comment.id

/-- Transitive closure of the `parent_id` cascade, with fuel bounded by
the table size. -/
def cascadeClosure (comments : List Comment) : Nat → List Nat → List Nat
  | 0, dead => dead
  | n + 1, dead => cascadeClosure comments n (cascadeStep comments dead)

/-- The full set of comment ids removed when `seed` ids are deleted:
close the seed under the `parent_id` cascade. -/
def condemnedComments (comments : List Comment) (seed : List Nat) : List Nat :=
  cascadeClosure comments comments.length seed

/-- `UserCRUD.delete_user`: absent id is a `False` no-op; otherwise the
row is removed and the engine cascades to the user's posts, the user's
comments, the comments of the deleted posts (transitively over
`parent_id`), and the deleted posts' tag associations. -/
def delete_user (db : DB) (user_id : Nat) : Bool × DB :=
  match get_user db user_id with
  | none => (false, db)
  | some _ =>
    let deadPostIds := (db.posts.filter (fun p => p.author_id == user_id)).map Post.id
    let seed := (db.comments.filter (fun c =>
      c.author_id == user_id || deadPostIds.contains c.post_id)).map Comment.id
    let deadComments := condemnedComments db.comments seed
    (true,
      { db with
        users := db.users.filter (fun u => u.id != user_id)
        posts := db.posts.filter (fun p => p.author_id != user_id)
        comments := db.comments.filter (fun c => !(deadComments.contains c.id))
        post_tags := db.post_tags.filter (fun pt => !(deadPostIds.contains pt.1)) })

/-- `PostCRUD.delete_post`: absent id is a `False` no-op; otherwise the
row is removed and the engine cascades to the post's comments
(transitively over `parent_id`) and its tag associations. -/
def delete_post (db : DB) (post_id : Nat) : Bool × DB :=
  match get_post db post_id with
  | none => (false, db)
  | some _ =>
    let seed := (db.comments.filter (fun c => c.post_id == post_id)).map Comment.id
    let deadComments := condemnedComments db.comments seed
    (true,
      { db with
        posts := db.posts.filter (fun p => p.id != post_id)
        comments := db.comments.filter (fun c => !(deadComments.contains c.id))
        post_tags := db.post_tags.filter (fun pt => pt.1 != post_id) })

/-! ## Relationship operations (`crud_operations.py`) -/

/-- `PostCRUD.add_tag_to_post`: both rows must exist; otherwise return
`None` with no mutation.  On success the pair is appended to the
`post_tags` association table and the (unchanged) post is returned. -/
def add_tag_to_post (db : DB) (post_id tag_id : Nat) : Option Post × DB :=
  match get_post db post_id, get_tag db tag_id with
  | some p, some _ =>
    (some p, { db with post_tags := db.post_tags ++ [(post_id, tag_id)] })
  | _, _ => (none, db)

/-- `CommentCRUD.get_post_comments`: comments of the post whose
`parent_id` is NULL. -/
def get_post_comments (db : DB) (post_id : Nat) : List Comment :=
  db.comments.filter (fun c => c.post_id == post_id && c.parent_id == none)

/-- `CommentCRUD.get_comment_replies`: comments whose `parent_id` is the
given id. -/
def get_comment_replies (db : DB) (parent_id : Nat) : List Comment :=
  db.comments.filter (fun c => c.parent_id == some parent_id)

/-- `TagCRUD.get_posts_by_tag`: `tag.posts if tag else []` — the posts
reached through the `post_tags` association, or the empty list when the
tag does not exist.  A pure query: the returned state is the input
state. -/
def get_posts_by_tag (db : DB) (tag_id : Nat) : List Post × DB :=
  match get_tag db tag_id with
  | none => ([], db)
  | some t =>
    (db.posts.filter (fun p => db.post_tags.contains (p.id, t.id)), db)

/-! ## Schema exporter (`utils/schema_dump.py`)

`get_dialect_ddl(metadata, dialect_name)` assembles a list of DDL
statement lines (the Python joins them with a newline at the end; we
keep the list).  The dialect-specific compilation of `CREATE TABLE` /
`CREATE INDEX` text is done by the external ORM compiler
(`CreateTable(table).compile(dialect=dialect)`), so the compiled text
is an input of the glue logic, carried as a function of the resolved
dialect name on each table and index. -/

/-- A column as the exporter sees it: `column.autoincrement` (truthy
unless explicitly disabled) and whether `column.default is None`. -/
structure SchemaColumn where
  name : String
  autoincrement : Bool
  hasDefault : Bool

/-- An index, with its externally compiled `CREATE INDEX` text per
dialect. -/
structure SchemaIndex where
  name : String
  compiledCreate : String → String

/-- A table in the registry, with its externally compiled
`CREATE TABLE` text per dialect. -/
structure SchemaTable where
  name : String
  columns : List SchemaColumn
  indexes : List SchemaIndex
  compiledCreate : String → String

/-- `Base.metadata` as consumed by the exporter: `metadata.sorted_tables`
(the ORM's deterministic foreign-key-dependency order) and
`metadata.tables.keys()`. -/
structure SchemaMeta where
  sortedTables : List SchemaTable
  tableNames : List String

/-- Lexicographic comparison of character lists by code point — the
order Python's `sorted` uses on strings. -/
def strLeChars : List Char → List Char → Bool
  | [], _ => true
  | _ :: _, [] => false
  | a :: as, b :: bs =>
    if a.toNat < b.toNat then true
    else if b.toNat < a.toNat then false
    else strLeChars as bs

/-- String comparison by code point (Python's string order). -/
def strLe (s t : String) : Bool := strLeChars s.data t.data

/-- Insertion into a `strLe`-sorted list of strings. -/
def insertSorted (s : String) : List String → List String
  | [] => [s]
  | t :: ts => if strLe s t then s :: t :: ts else t :: insertSorted s ts

/-- Python's `sorted` on a list of strings. -/
def sortStrings : List String → List String
  | [] => []
  | s :: ss => insertSorted s (sortStrings ss)

/-- Python's `', '.join`. -/
def joinComma : List String → String
  | [] => ""
  | [s] => s
  | s :: ss => s ++ ", " ++ joinComma ss

/-- `dialects.get(dialect_name, postgresql.dialect())`: an unknown
dialect name compiles with the PostgreSQL dialect. -/
def resolveDialect (dialect_name : String) : String :=
  if dialect_name = "postgresql" || dialect_name = "mysql" ||
     dialect_name = "sqlite" then dialect_name else "postgresql"

/-- Single-character `str.replace`: substitute every occurrence of `c`
by `r` (for a one-character pattern this is exactly Python's
`str.replace`). -/
def replaceChar (c : Char) (r : List Char) : List Char → List Char
  | [] => []
  | a :: as => if a = c then r ++ replaceChar c r as
               else a :: replaceChar c r as

/-- `create_stmt.replace('\n', '\n  ').replace('\t', '  ')` — both
patterns are single characters, applied in source order. -/
def fmtCreate (stmt : String) : String :=
  String.mk (replaceChar '\t' [' ', ' ']
    (replaceChar '\n' ['\n', ' ', ' '] stmt.data))

/-- The `CREATE SEQUENCE` lines emitted for one table (PostgreSQL
branch): one per column with truthy `autoincrement` and no default. -/
def seqLinesForTable (t : SchemaTable) : List String :=
  t.columns.foldr (fun c acc =>
    if c.autoincrement && !c.hasDefault then
      ("-- Sequence for " ++ t.name ++ "." ++ c.name) ::
      ("CREATE SEQUENCE IF NOT EXISTS " ++ t.name ++ "_" ++ c.name ++ "_seq;") ::
      "" :: acc
    else acc) []

/-- The three lines emitted for one table in the `-- Tables` section. -/
def tableLines (dialect : String) (t : SchemaTable) : List String :=
  [("-- Table: " ++ t.name), fmtCreate (t.compiledCreate dialect) ++ ";", ""]

/-- The `(table, index)` pairs in iteration order of the index loop. -/
def indexPairs (tables : List SchemaTable) : List (SchemaTable × SchemaIndex) :=
  tables.flatMap (fun t => t.indexes.map (fun i => (t, i)))

/-- The three lines emitted for one index. -/
def indexEntryLines (dialect : String) (ti : SchemaTable × SchemaIndex) :
    List String :=
  [("-- Index: " ++ ti.2.name ++ " on " ++ ti.1.name),
   ti.2.compiledCreate dialect ++ ";", ""]

/-- `get_dialect_ddl(metadata, dialect_name)` from
`utils/schema_dump.py` (lines 18–68), as the list of statement lines
that the Python joins with a newline.  `generatedAt` stands for
`datetime.now().isoformat()`.  Structure, in source order: the four
header comment lines and a blank, then — for `dialect_name ==
'postgresql'` only — the `CREATE SEQUENCE` statements, then the
`-- Tables` section over `metadata.sorted_tables`, then the indexes
under the `-- Indexes` heading (emitted before the first index, via
the `has_indexes` flag). -/
def get_dialect_ddl (meta : SchemaMeta) (dialect_name : String)
    (generatedAt : String) : List String :=
  let dialect := resolveDialect dialect_name
  let header := ["-- SQLAlchemy Schema Dump",
    "-- Generated: " ++ generatedAt,
    "-- Dialect: " ++ dialect_name,
    "-- Tables: " ++ joinComma (sortStrings meta.tableNames),
    ""]
  let seqs := if dialect_name = "postgresql" then
      meta.sortedTables.flatMap seqLinesForTable
    else []
  let tbls := "-- Tables" :: meta.sortedTables.flatMap (tableLines dialect)
  let pairs := indexPairs meta.sortedTables
  let idxs := if pairs.isEmpty then [] else
    "-- Indexes" :: pairs.flatMap (indexEntryLines dialect)
  header ++ seqs ++ tbls ++ idxs

/-! ### The repository's registered tables

The five tables registered on `Base.metadata` by `models/post.py`,
`models/comment.py` and the `User` model.  `autoincrement` is the
`Column` parameter, which defaults to `'auto'` — truthy in Python — and
is never passed explicitly in the models, so it is truthy on every
column; `hasDefault` records the columns declared with `default=...`.
The compiled `CREATE TABLE` / `CREATE INDEX` texts are the external ORM
compiler's output and are carried here as opaque placeholder strings;
no claim depends on their content.  `sorted_tables` is the ORM's
deterministic foreign-key-dependency enumeration of these tables. -/

/-- Shorthand for a column of the repository's models. -/
def col (name : String) (hasDefault : Bool) : SchemaColumn :=
  { name := name, autoincrement := true, hasDefault := hasDefault }

/-- Shorthand for an `index=True` index of the repository's models. -/
def ix (name : String) : SchemaIndex :=
  { name := name, compiledCreate := fun _ => "CREATE INDEX " ++ name }

/-- Modelled from the spec: the `users` table of the absent
`models/user.py`, per §3 (unique indexed username and email, defaults on
`is_active`, `is_superuser` and the timestamps). -/
def usersTable : SchemaTable :=
  { name := "users"
    columns := [col "id" false, col "username" false, col "email" false,
      col "hashed_password" false, col "full_name" false, col "bio" false,
      col "is_active" true, col "is_superuser" true,
      col "created_at" true, col "updated_at" true]
    indexes := [ix "ix_users_id", ix "ix_users_username", ix "ix_users_email"]
    compiledCreate := fun _ => "CREATE TABLE users" }

/-- `models/post.py`: the `posts` table. -/
def postsTable : SchemaTable :=
  { name := "posts"
    columns := [col "id" false, col "title" false, col "slug" false,
      col "content" false, col "summary" false, col "is_published" true,
      col "published_at" false, col "view_count" true, col "author_id" false,
      col "created_at" true, col "updated_at" true]
    indexes := [ix "ix_posts_id", ix "ix_posts_slug"]
    compiledCreate := fun _ => "CREATE TABLE posts" }

/-- `models/post.py`: the `tags` table. -/
def tagsTable : SchemaTable :=
  { name := "tags"
    columns := [col "id" false, col "name" false, col "slug" false,
      col "description" false, col "created_at" true]
    indexes := [ix "ix_tags_id", ix "ix_tags_name", ix "ix_tags_slug"]
    compiledCreate := fun _ => "CREATE TABLE tags" }

/-- `models/comment.py`: the `comments` table. -/
def commentsTable : SchemaTable :=
  { name := "comments"
    columns := [col "id" false, col "content" false, col "is_approved" true,
      col "author_id" false, col "post_id" false, col "parent_id" false,
      col "created_at" true, col "updated_at" true]
    indexes := [ix "ix_comments_id"]
    compiledCreate := fun _ => "CREATE TABLE comments" }

/-- `models/post.py`: the `post_tags` association table (two foreign-key
columns, no indexes). -/
def postTagsTable : SchemaTable :=
  { name := "post_tags"
    columns := [col "post_id" false, col "tag_id" false]
    indexes := []
    compiledCreate := fun _ => "CREATE TABLE post_tags" }

/-- `Base.metadata` for the repository's five tables.  `sorted_tables`
is the ORM's deterministic topological sort by foreign-key dependency,
scanning tables in alphabetical key order: the dependency-free `tags`
and `users` come first (alphabetically), then `posts` (depends on
users), `comments` (depends on users, posts and itself), `post_tags`
(depends on posts and tags) — tags, users, posts, comments, post_tags.
Note this is NOT plain name-sorted order (`comments` would come first);
the name-sorted listing appears only in the `-- Tables:` header line,
built from the raw `metadata.tables` key set. -/
def repoMeta : SchemaMeta :=
  { sortedTables := [tagsTable, usersTable, postsTable, commentsTable,
      postTagsTable]
    tableNames := ["posts", "tags", "comments", "users", "post_tags"] }

/-! ## External dump sub-process (`utils/validate_and_dump.py`,
`utils/pg_dump_helper.py`)

A `subprocess.run` invocation is modelled by its argument vector and
keyword options; the sub-process outcome (exit code with captured
output, or expiry of the bounded wait) is an input. -/

/-- The keyword options of one `subprocess.run` call. -/
structure SubprocessCall where
  args : List String
  captureOutput : Bool
  textMode : Bool
  check : Bool
  timeoutSeconds : Option Nat
deriving Repr, DecidableEq

/-- Outcome of a sub-process: it completed with an exit code and
captured streams, or the bounded wait expired (`TimeoutExpired`). -/
inductive ProcOutcome where
  | completed (exitCode : Nat) (stdout stderr : String)
  | expired
deriving Repr, DecidableEq

/-- The `subprocess.run` call in `run_pg_dump`
(`utils/validate_and_dump.py` lines 43–62): `capture_output=True,
text=True, check=True, timeout=30`. -/
def runPgDumpCmd (containerId database : String) : SubprocessCall :=
  { args := ["docker", "exec", containerId, "pg_dump", "--schema-only",
      "--no-owner", "--no-privileges", "--no-tablespaces",
      "--quote-all-identifiers", "-U", "test", "-d", database]
    captureOutput := true
    textMode := true
    check := true
    timeoutSeconds := some 30 }

/-- The `subprocess.run` call in `dump_with_testcontainer`
(`utils/pg_dump_helper.py` line 77): `capture_output=True, text=True,
check=True` and no `timeout` keyword. -/
def dumpWithTestcontainerCmd (containerId username database : String) :
    SubprocessCall :=
  { args := ["docker", "exec", containerId, "pg_dump", "--schema-only",
      "--no-owner", "--no-privileges", "--no-tablespaces",
      "--quote-all-identifiers", "-U", username, "-d", database]
    captureOutput := true
    textMode := true
    check := true
    timeoutSeconds := none }

/-- The `subprocess.run` call in `dump_with_running_container`
(`utils/pg_dump_helper.py` line 152): no `timeout` keyword either. -/
def dumpWithRunningContainerCmd : SubprocessCall :=
  { args := ["docker", "exec", "postgres-dev", "pg_dump", "--schema-only",
      "--no-owner", "--no-privileges", "--no-tablespaces",
      "--quote-all-identifiers", "-U", "dev", "-d", "sqlalchemy_test"]
    captureOutput := true
    textMode := true
    check := true
    timeoutSeconds := none }

/-- The modelled invocations of the external dump binary across the
exporter utilities (at representative arguments — the `timeout`
keyword does not depend on them). -/
def dumpInvocations : List SubprocessCall :=
  [runPgDumpCmd "cid" "test",
   dumpWithTestcontainerCmd "cid" "test" "test",
   dumpWithRunningContainerCmd]

/-- `run_pg_dump` (`utils/validate_and_dump.py` lines 31–70) as a
function of the sub-process outcome: with `check=True` a zero exit
returns `(True, stdout)`; a non-zero exit raises
`CalledProcessError`, caught and turned into `(False, "")`; expiry of
the 30-second wait raises `TimeoutExpired`, caught and turned into
`(False, "")`. -/
def run_pg_dump (outcome : ProcOutcome) : Bool × String :=
  match outcome with
  | .completed 0 out _ => (true, out)
  | .completed _ _ _ => (false, "")
  | .expired => (false, "")

/-- A file written by the exporter. -/
structure FileWrite where
  path : String
  content : String
deriving Repr, DecidableEq

/-- The clean-copy filter of `save_schema_dump`
(`utils/validate_and_dump.py` lines 174–182): keep non-blank lines
that are not `--` comments, except `COMMENT ON` lines. -/
def cleanContent (content : String) : String :=
  String.intercalate "\n" ((content.splitOn "\n").filter (fun line =>
    (!(line.trim.startsWith "--") || (line.splitOn "COMMENT ON").length > 1)
    && line.trim ≠ ""))

/-- `save_schema_dump` (`utils/validate_and_dump.py` lines 143–188):
the timestamped dump file (header plus `pg_dump` output) and its clean
copy.  `ts` stands for the `%Y%m%d_%H%M%S` timestamp and `generatedAt`
for `datetime.now().isoformat()`; the `latest` symlink is a filesystem
alias, not a content write. -/
def save_schema_dump (dump_content ts generatedAt : String) : List FileWrite :=
  let header := "--\n-- PostgreSQL Schema Dump (via testcontainer)\n" ++
    "-- Generated: " ++ generatedAt ++
    "\n-- Method: Integrated validation with migrations\n--\n\n"
  let body := header ++ dump_content
  [{ path := "schema/schema_postgres_" ++ ts ++ ".sql", content := body },
   { path := "schema/schema_postgres_clean_" ++ ts ++ ".sql"
     content := cleanContent body }]

/-- Steps 4–5 of `validate_and_dump`
(`utils/validate_and_dump.py` lines 237–245, 284): run `pg_dump`; on
failure return exit code 1 having written nothing; on success save the
dump files and (after the remaining diagnostics) return 0. -/
def validate_and_dump_tail (outcome : ProcOutcome) (ts generatedAt : String) :
    Nat × List FileWrite :=
  let r := run_pg_dump outcome
  if r.1 then (0, save_schema_dump r.2 ts generatedAt)
  else (1, [])

/-- `dump_with_testcontainer` (`utils/pg_dump_helper.py` lines 61–114)
from the `subprocess.run` call on: the call has no `timeout`, so the
outcome is an exit code with captured streams; `check=True` raises on a
non-zero exit, caught to return `None` with no file written; on a zero
exit the dump file and its clean copy are written and the dump path is
returned. -/
def dump_with_testcontainer (exitCode : Nat) (stdout : String)
    (ts generatedAt : String) : Option String × List FileWrite :=
  if exitCode = 0 then
    let header := "--\n-- PostgreSQL Schema Dump\n" ++
      "-- Generated: " ++ generatedAt ++
      "\n-- Generated with: pg_dump via testcontainer\n--\n\n"
    let body := header ++ stdout
    let path := "schema/schema_postgres_" ++ ts ++ ".sql"
    (some path,
     [{ path := path, content := body },
      { path := "schema/schema_postgres_clean_" ++ ts ++ ".sql"
        content := String.intercalate "\n" ((body.splitOn "\n").filter
          (fun line => !(line.trim.startsWith "--") && line.trim ≠ "")) }])
  else (none, [])

/-! ## Sample store

A small concrete store in the shape of the end-to-end scenario of the
spec (§8): two users, one post by the first user, a top-level comment,
a reply, a depth-2 reply, one tag attached to the post. -/

/-- Sample user "john". -/
def sampleJohn : User :=
  { id := 1, username := "john", email := "john@example.com"
    hashed_password := "h1", full_name := some "John Doe", bio := none
    is_active := true, is_superuser := false, created_at := 10, updated_at := 10 }

/-- Sample user "mary". -/
def sampleMary : User :=
  { id := 2, username := "mary", email := "mary@example.com"
    hashed_password := "h2", full_name := none, bio := none
    is_active := true, is_superuser := false, created_at := 11, updated_at := 11 }

/-- Sample post "Intro" authored by john. -/
def samplePost : Post :=
  { id := 1, title := "Intro", slug := some "intro", content := "Hello"
    summary := none, is_published := false, published_at := none
    view_count := 0, author_id := 1, created_at := 12, updated_at := 12 }

/-- Sample top-level comment "nice" by mary on the post. -/
def sampleComment : Comment :=
  { id := 1, content := "nice", is_approved := true, author_id := 2
    post_id := 1, parent_id := none, created_at := 13, updated_at := 13 }

/-- Sample reply to the top-level comment. -/
def sampleReply : Comment :=
  { id := 2, content := "thanks", is_approved := true, author_id := 1
    post_id := 1, parent_id := some 1, created_at := 14, updated_at := 14 }

/-- Sample depth-2 reply (reply to the reply). -/
def sampleReply2 : Comment :=
  { id := 3, content := "welcome", is_approved := true, author_id := 2
    post_id := 1, parent_id := some 2, created_at := 15, updated_at := 15 }

/-- Sample tag "Technology", attached to the post. -/
def sampleTag : Tag :=
  { id := 1, name := "Technology", slug := some "technology"
    description := none, created_at := 9 }

/-- The sample store. -/
def sampleDB : DB :=
  { users := [sampleJohn, sampleMary]
    posts := [samplePost]
    tags := [sampleTag]
    comments := [sampleComment, sampleReply, sampleReply2]
    post_tags := [(1, 1)]
    nextUserId := 3, nextPostId := 2, nextTagId := 2, nextCommentId := 4 }

/-! ## General lemmas -/

/-- `find?` skips a prefix on which the predicate fails. -/
theorem find?_append_eq_right {α} (p : α → Bool) (l₁ l₂ : List α)
    (h : ∀ x ∈ l₁, p x = false) :
    List.find? p (l₁ ++ l₂) = List.find? p l₂ := by
  induction l₁ with
  | nil => simp
  | cons a l ih =>
    rw [List.cons_append, List.find?_cons_of_neg _ (by simp [h a])]
    exact ih (fun x hx => h x (List.mem_cons_of_mem a hx))

/-- A condemned id stays condemned across one cascade step. -/
theorem mem_cascadeStep (comments : List Comment) (dead : List Nat)
    {x : Nat} (hx : x ∈ dead) : x ∈ cascadeStep comments dead :=
  List.mem_append_left _ hx

/-- A condemned id stays condemned across the cascade closure. -/
theorem mem_cascadeClosure (comments : List Comment) :
    ∀ (n : Nat) (dead : List Nat), ∀ x ∈ dead,
      x ∈ cascadeClosure comments n dead := by
  intro n
  induction n with
  | zero => intro dead x hx; simpa [cascadeClosure] using hx
  | succ n ih =>
    intro dead x hx
    simpa [cascadeClosure] using
      ih (cascadeStep comments dead) x (mem_cascadeStep comments dead hx)

/-- A seed id is condemned. -/
theorem mem_condemnedComments (comments : List Comment) (seed : List Nat)
    {x : Nat} (hx : x ∈ seed) : x ∈ condemnedComments comments seed :=
  mem_cascadeClosure comments comments.length seed x hx

/-! ## Claim theorems -/

/-- C4: `delete(id)` on an existing id removes the entity and returns
`true`, after which `get(id)` is absent; on a nonexistent id it returns
`false` and leaves the store entirely unchanged (for both
`UserCRUD.delete_user` and `PostCRUD.delete_post`). -/
theorem delete_contract (db : DB) (uid pid : Nat) :
    ((get_user db uid).isSome →
      (delete_user db uid).1 = true ∧
      get_user (delete_user db uid).2 uid = none) ∧
    (get_user db uid = none → delete_user db uid = (false, db)) ∧
    ((get_post db pid).isSome →
      (delete_post db pid).1 = true ∧
      get_post (delete_post db pid).2 pid = none) ∧
    (get_post db pid = none → delete_post db pid = (false, db)) := by
  refine ⟨?_, ?_, ?_, ?_⟩
  · intro h
    obtain ⟨u, hu⟩ := Option.isSome_iff_exists.mp h
    unfold delete_user
    rw [hu]
    refine ⟨rfl, ?_⟩
    simp only [get_user]
    rw [List.find?_eq_none]
    intro v hv
    have hv2 := (List.mem_filter.mp hv).2
    simp only [bne_iff_ne, ne_eq] at hv2
    simp [hv2]
  · intro h; simp [delete_user, h]
  · intro h
    obtain ⟨p, hp⟩ := Option.isSome_iff_exists.mp h
    unfold delete_post
    rw [hp]
    refine ⟨rfl, ?_⟩
    simp only [get_post]
    rw [List.find?_eq_none]
    intro q hq
    have hq2 := (List.mem_filter.mp hq).2
    simp only [bne_iff_ne, ne_eq] at hq2
    simp [hq2]
  · intro h; simp [delete_post, h]

/-- C4 witness: on the sample store, deleting user 1 and post 1
succeeds and the subsequent gets are absent; deleting ids 99 is a
`false` no-op. -/
theorem delete_contract_witness :
    ((delete_user sampleDB 1).1 = true ∧
      get_user (delete_user sampleDB 1).2 1 = none) ∧
    delete_user sampleDB 99 = (false, sampleDB) ∧
    ((delete_post sampleDB 1).1 = true ∧
      get_post (delete_post sampleDB 1).2 1 = none) ∧
    delete_post sampleDB 99 = (false, sampleDB) := by
  have h1 := delete_contract sampleDB 1 1
  have h99 := delete_contract sampleDB 99 99
  exact ⟨h1.1 (by decide), h99.2.1 (by decide),
    h1.2.2.1 (by decide), h99.2.2.2 (by decide)⟩

/-- C5: `PostCRUD.add_tag_to_post` succeeds exactly when both the post
and the tag exist, appending the association pair; when either is
absent it returns `None` and leaves the store unchanged. -/
theorem add_tag_to_post_contract (db : DB) (pid tid : Nat) :
    (∀ p, get_post db pid = some p → (get_tag db tid).isSome →
      add_tag_to_post db pid tid =
        (some p, { db with post_tags := db.post_tags ++ [(pid, tid)] })) ∧
    (get_post db pid = none ∨ get_tag db tid = none →
      add_tag_to_post db pid tid = (none, db)) := by
  constructor
  · intro p hp ht
    obtain ⟨t, ht⟩ := Option.isSome_iff_exists.mp ht
    simp [add_tag_to_post, hp, ht]
  · rintro (h | h)
    · simp [add_tag_to_post, h]
    · cases hp : get_post db pid <;> simp [add_tag_to_post, hp, h]

/-- C5 witness: on the sample store, attaching tag 1 to post 1 appends
the pair; attaching to a missing post or a missing tag is a `None`
no-op. -/
theorem add_tag_to_post_contract_witness :
    add_tag_to_post sampleDB 1 1 =
      (some samplePost,
        { sampleDB with post_tags := sampleDB.post_tags ++ [(1, 1)] }) ∧
    add_tag_to_post sampleDB 99 1 = (none, sampleDB) ∧
    add_tag_to_post sampleDB 1 99 = (none, sampleDB) := by
  refine ⟨(add_tag_to_post_contract sampleDB 1 1).1 samplePost
      (by decide) (by decide),
    (add_tag_to_post_contract sampleDB 99 1).2 (Or.inl (by decide)),
    (add_tag_to_post_contract sampleDB 1 99).2 (Or.inr (by decide))⟩

/-- C6: `CommentCRUD.get_post_comments` returns exactly the comments of
the post with no parent (top level only), and
`CommentCRUD.get_comment_replies` returns exactly the direct replies of
the given comment (no recursive traversal). -/
theorem comment_listing_contract (db : DB) (pid cid : Nat) (c : Comment) :
    (c ∈ get_post_comments db pid ↔
      c ∈ db.comments ∧ c.post_id = pid ∧ c.parent_id = none) ∧
    (c ∈ get_comment_replies db cid ↔
      c ∈ db.comments ∧ c.parent_id = some cid) := by
  constructor
  · simp [get_post_comments, List.mem_filter, and_assoc]
  · simp [get_comment_replies, List.mem_filter]

/-- C10: `TagCRUD.get_posts_by_tag` on a missing tag id returns the
empty list (not an absent result) and never mutates the store; on an
existing tag it returns exactly the posts associated through
`post_tags`. -/
theorem get_posts_by_tag_contract (db : DB) (tid : Nat) :
    ((get_posts_by_tag db tid).2 = db) ∧
    (get_tag db tid = none → (get_posts_by_tag db tid).1 = []) ∧
    (∀ t, get_tag db tid = some t → ∀ p,
      p ∈ (get_posts_by_tag db tid).1 ↔
        p ∈ db.posts ∧ (p.id, tid) ∈ db.post_tags) := by
  refine ⟨?_, ?_, ?_⟩
  · cases h : get_tag db tid <;> simp [get_posts_by_tag, h]
  · intro h; simp [get_posts_by_tag, h]
  · intro t ht p
    have hid : t.id = tid := by
      have := List.find?_some ht
      simpa using this
    simp [get_posts_by_tag, ht, List.mem_filter, hid, List.contains]

/-- C10 witness: on the sample store, tag 1 yields exactly the one
associated post and tag 99 yields the empty list with the store
untouched. -/
theorem get_posts_by_tag_contract_witness :
    (get_posts_by_tag sampleDB 99).2 = sampleDB ∧
    (get_posts_by_tag sampleDB 99).1 = [] ∧
    (samplePost ∈ (get_posts_by_tag sampleDB 1).1 ↔
      samplePost ∈ sampleDB.posts ∧ (samplePost.id, 1) ∈ sampleDB.post_tags) := by
  refine ⟨(get_posts_by_tag_contract sampleDB 99).1,
    (get_posts_by_tag_contract sampleDB 99).2.1 (by decide),
    (get_posts_by_tag_contract sampleDB 1).2.2 sampleTag (by decide) samplePost⟩

/-- C2: for every entity type and valid field set, `create` followed by
`get` on the returned id yields a row equal in every supplied field to
what was supplied, with a generated identifier (nonzero: the engine's
sequences start at 1, so 0 plays the role of NULL) and populated
creation/update timestamps (`Tag` declares only a creation timestamp),
and with unsupplied defaultable fields at their declared defaults
(`User.is_active` true, `User.is_superuser` false, `Post.is_published`
false, `Post.view_count` 0, `Comment.is_approved` true). -/
theorem create_get_roundtrip (db : DB) (now : Nat) (hwf : db.wf) :
    (∀ un em pw kw u db', create_user db now un em pw kw = .ok (u, db') →
      u.id ≠ 0 ∧ u.username = un ∧ u.email = em ∧ u.hashed_password = pw ∧
      u.full_name = kw.full_name ∧ u.bio = kw.bio ∧
      u.is_active = kw.is_active.getD true ∧
      u.is_superuser = kw.is_superuser.getD false ∧
      u.created_at = now ∧ u.updated_at = now ∧
      get_user db' u.id = some u) ∧
    (∀ ti co aid kw p db', create_post db now ti co aid kw = .ok (p, db') →
      p.id ≠ 0 ∧ p.title = ti ∧ p.content = co ∧ p.author_id = aid ∧
      p.slug = kw.slug ∧ p.summary = kw.summary ∧
      p.is_published = kw.is_published.getD false ∧
      p.published_at = kw.published_at ∧
      p.view_count = kw.view_count.getD 0 ∧
      p.created_at = now ∧ p.updated_at = now ∧
      get_post db' p.id = some p) ∧
    (∀ na kw t db', create_tag db now na kw = .ok (t, db') →
      t.id ≠ 0 ∧ t.name = na ∧ t.slug = kw.slug ∧
      t.description = kw.description ∧ t.created_at = now ∧
      get_tag db' t.id = some t) ∧
    (∀ co aid pid par c db', create_comment db now co aid pid par = .ok (c, db') →
      c.id ≠ 0 ∧ c.content = co ∧ c.author_id = aid ∧ c.post_id = pid ∧
      c.parent_id = par ∧ c.is_approved = true ∧
      c.created_at = now ∧ c.updated_at = now ∧
      get_comment db' c.id = some c) := by
  obtain ⟨-, -, -, -, hbu, hbp, hbt, hbc, h1u, h1p, h1t, h1c⟩ := hwf
  refine ⟨?_, ?_, ?_, ?_⟩
  · intro un em pw kw u db' h
    unfold create_user at h
    dsimp only at h
    split at h
    · exact absurd h (by simp)
    · simp only [Except.ok.injEq, Prod.mk.injEq] at h
      obtain ⟨hu, hdb⟩ := h
      subst hu; subst hdb
      refine ⟨Nat.pos_iff_ne_zero.mp h1u, rfl, rfl, rfl, rfl, rfl, rfl, rfl,
        rfl, rfl, ?_⟩
      simp only [get_user]
      rw [find?_append_eq_right]
      · simp
      · intro v hv
        have := hbu v hv
        simp only [mkUserRow, beq_eq_false_iff_ne, ne_eq]
        omega
  · intro ti co aid kw p db' h
    unfold create_post at h
    dsimp only at h
    split at h
    · exact absurd h (by simp)
    · simp only [Except.ok.injEq, Prod.mk.injEq] at h
      obtain ⟨hp, hdb⟩ := h
      subst hp; subst hdb
      refine ⟨Nat.pos_iff_ne_zero.mp h1p, rfl, rfl, rfl, rfl, rfl, rfl, rfl,
        rfl, rfl, rfl, ?_⟩
      simp only [get_post]
      rw [find?_append_eq_right]
      · simp
      · intro q hq
        have := hbp q hq
        simp only [beq_eq_false_iff_ne, ne_eq]
        omega
  · intro na kw t db' h
    unfold create_tag at h
    dsimp only at h
    split at h
    · exact absurd h (by simp)
    · simp only [Except.ok.injEq, Prod.mk.injEq] at h
      obtain ⟨ht, hdb⟩ := h
      subst ht; subst hdb
      refine ⟨Nat.pos_iff_ne_zero.mp h1t, rfl, rfl, rfl, rfl, ?_⟩
      simp only [get_tag]
      rw [find?_append_eq_right]
      · simp
      · intro s hs
        have := hbt s hs
        simp only [beq_eq_false_iff_ne, ne_eq]
        omega
  · intro co aid pid par c db' h
    unfold create_comment at h
    dsimp only at h
    split at h
    · exact absurd h (by simp)
    · simp only [Except.ok.injEq, Prod.mk.injEq] at h
      obtain ⟨hc, hdb⟩ := h
      subst hc; subst hdb
      refine ⟨Nat.pos_iff_ne_zero.mp h1c, rfl, rfl, rfl, rfl, rfl, rfl, rfl, ?_⟩
      simp only [get_comment]
      rw [find?_append_eq_right]
      · simp
      · intro d hd
        have := hbc d hd
        simp only [beq_eq_false_iff_ne, ne_eq]
        omega

/-- The row produced by creating user "alice" on the sample store. -/
def createdAlice : User :=
  { id := 3, username := "alice", email := "alice@example.com"
    hashed_password := "pw", full_name := none, bio := none
    is_active := true, is_superuser := false, created_at := 20, updated_at := 20 }

/-- The sample store after creating "alice". -/
def aliceDB : DB :=
  { sampleDB with users := sampleDB.users ++ [createdAlice], nextUserId := 4 }

/-- The row produced by creating a second post on the sample store. -/
def createdPost2 : Post :=
  { id := 2, title := "Second", slug := none, content := "More"
    summary := none, is_published := false, published_at := none
    view_count := 0, author_id := 2, created_at := 21, updated_at := 21 }

/-- The sample store after creating the second post. -/
def post2DB : DB :=
  { sampleDB with posts := sampleDB.posts ++ [createdPost2], nextPostId := 3 }

/-- The row produced by creating tag "Science" on the sample store. -/
def createdScience : Tag :=
  { id := 2, name := "Science", slug := none, description := none
    created_at := 22 }

/-- The sample store after creating tag "Science". -/
def scienceDB : DB :=
  { sampleDB with tags := sampleDB.tags ++ [createdScience], nextTagId := 3 }

/-- The row produced by creating a fourth comment on the sample store. -/
def createdComment4 : Comment :=
  { id := 4, content := "again", is_approved := true, author_id := 1
    post_id := 1, parent_id := some 3, created_at := 23, updated_at := 23 }

/-- The sample store after creating the fourth comment. -/
def comment4DB : DB :=
  { sampleDB with comments := sampleDB.comments ++ [createdComment4]
                  nextCommentId := 5 }

/-- C2 witness: concrete creations of each entity type on the sample
store round-trip through `get` with defaults applied. -/
theorem create_get_roundtrip_witness :
    (createdAlice.id ≠ 0 ∧ createdAlice.is_active = true ∧
      createdAlice.is_superuser = false ∧
      get_user aliceDB createdAlice.id = some createdAlice) ∧
    (createdPost2.is_published = false ∧ createdPost2.view_count = 0 ∧
      get_post post2DB createdPost2.id = some createdPost2) ∧
    get_tag scienceDB createdScience.id = some createdScience ∧
    (createdComment4.is_approved = true ∧
      get_comment comment4DB createdComment4.id = some createdComment4) := by
  have h := create_get_roundtrip sampleDB 20 (by decide)
  have hu := h.1 "alice" "alice@example.com" "pw" {} createdAlice aliceDB
    (by rfl)
  have h21 := create_get_roundtrip sampleDB 21 (by decide)
  have hp := h21.2.1 "Second" "More" 2 {} createdPost2 post2DB (by rfl)
  have h22 := create_get_roundtrip sampleDB 22 (by decide)
  have ht := h22.2.2.1 "Science" {} createdScience scienceDB (by rfl)
  have h23 := create_get_roundtrip sampleDB 23 (by decide)
  have hc := h23.2.2.2 "again" 1 1 (some 3) createdComment4 comment4DB
    (by rfl)
  exact ⟨⟨hu.1, hu.2.2.2.2.2.2.1, hu.2.2.2.2.2.2.2.1, hu.2.2.2.2.2.2.2.2.2.2⟩,
    ⟨hp.2.2.2.2.2.2.1, hp.2.2.2.2.2.2.2.2.1, hp.2.2.2.2.2.2.2.2.2.2.2⟩,
    ht.2.2.2.2.2,
    ⟨hc.2.2.2.2.2.1, hc.2.2.2.2.2.2.2.2⟩⟩

/-- A lookup among the survivors of a condemned-id filter misses every
condemned id. -/
theorem find?_comment_filter_dead (comments : List Comment) (dead : List Nat)
    {cid : Nat} (hmem : cid ∈ dead) :
    List.find? (fun d => d.id == cid)
      (comments.filter (fun c => !(dead.contains c.id))) = none := by
  rw [List.find?_eq_none]
  intro d hd heq
  have h2 := (List.mem_filter.mp hd).2
  have hdid : d.id = cid := by simpa using heq
  rw [hdid] at h2
  simp at h2
  exact h2 hmem

/-- C1: deleting a user removes (cascade) all their posts, all comments
on those posts, and all comments they authored; deleting a post removes
every comment whose `post_id` is that post's id — the reply subtrees of
depth ≥ 2 reached through `parent_id` carry the same `post_id`, and the
witness below exercises such a subtree — so that a `get` on any of the
removed ids is afterwards absent. -/
theorem cascade_delete_contract (db : DB) (uid pid : Nat) (hwf : db.wf) :
    ((get_user db uid).isSome →
      (∀ p ∈ db.posts, p.author_id = uid →
        get_post (delete_user db uid).2 p.id = none) ∧
      (∀ c ∈ db.comments, c.author_id = uid →
        get_comment (delete_user db uid).2 c.id = none) ∧
      (∀ c ∈ db.comments,
        (∃ p ∈ db.posts, p.author_id = uid ∧ c.post_id = p.id) →
        get_comment (delete_user db uid).2 c.id = none)) ∧
    ((get_post db pid).isSome →
      ∀ c ∈ db.comments, c.post_id = pid →
        get_comment (delete_post db pid).2 c.id = none) := by
  obtain ⟨-, hnp, -, -, -, -, -, -, -⟩ := hwf
  constructor
  · intro hu
    obtain ⟨u, hu⟩ := Option.isSome_iff_exists.mp hu
    unfold delete_user
    rw [hu]
    dsimp only
    refine ⟨?_, ?_, ?_⟩
    · intro p hp hpa
      simp only [get_post]
      rw [List.find?_eq_none]
      intro q hq heq
      have hq2 := (List.mem_filter.mp hq).2
      have hqid : q.id = p.id := by simpa using heq
      have hqp : q = p :=
        List.inj_on_of_nodup_map hnp (List.mem_filter.mp hq).1 hp hqid
      rw [hqp] at hq2
      simp [hpa] at hq2
    · intro c hc hca
      simp only [get_comment]
      apply find?_comment_filter_dead
      apply mem_condemnedComments
      exact List.mem_map.mpr ⟨c, List.mem_filter.mpr ⟨hc, by simp [hca]⟩, rfl⟩
    · rintro c hc ⟨p, hp, hpa, hcp⟩
      simp only [get_comment]
      apply find?_comment_filter_dead
      apply mem_condemnedComments
      refine List.mem_map.mpr ⟨c, List.mem_filter.mpr ⟨hc, ?_⟩, rfl⟩
      apply Bool.or_eq_true_iff.mpr
      right
      have hpm : c.post_id ∈
          (db.posts.filter (fun q => q.author_id == uid)).map Post.id :=
        List.mem_map.mpr ⟨p, List.mem_filter.mpr ⟨hp, by simp [hpa]⟩, hcp.symm⟩
      simp [List.contains, hpm]
  · intro hp
    obtain ⟨p0, hp0⟩ := Option.isSome_iff_exists.mp hp
    unfold delete_post
    rw [hp0]
    dsimp only
    intro c hc hcp
    simp only [get_comment]
    apply find?_comment_filter_dead
    apply mem_condemnedComments
    exact List.mem_map.mpr ⟨c, List.mem_filter.mpr ⟨hc, by simp [hcp]⟩, rfl⟩

/-- C1 witness: on the sample store, deleting user 1 (author of the
post) removes the post, the comment on it by another user, the comment
authored by user 1, and the depth-2 reply; deleting post 1 removes the
depth-2 reply of its comment subtree. -/
theorem cascade_delete_contract_witness :
    get_post (delete_user sampleDB 1).2 samplePost.id = none ∧
    get_comment (delete_user sampleDB 1).2 sampleComment.id = none ∧
    get_comment (delete_user sampleDB 1).2 sampleReply.id = none ∧
    get_comment (delete_user sampleDB 1).2 sampleReply2.id = none ∧
    get_comment (delete_post sampleDB 1).2 sampleReply2.id = none := by
  have h := cascade_delete_contract sampleDB 1 1 (by decide)
  have hu := h.1 (by decide)
  exact ⟨hu.1 samplePost (by decide) (by decide),
    hu.2.2 sampleComment (by decide) ⟨samplePost, by decide, by decide, rfl⟩,
    hu.2.1 sampleReply (by decide) (by decide),
    hu.2.2 sampleReply2 (by decide) ⟨samplePost, by decide, by decide, rfl⟩,
    h.2 (by decide) sampleReply2 (by decide) (by decide)⟩

/-- `find?` by id over an id-targeted in-place replacement returns the
replacement row whenever the id was present. -/
theorem find?_posts_update (pid : Nat) (x : Post)
    (hx : (x.id == pid) = true) :
    ∀ l : List Post, (List.find? (fun q => q.id == pid) l).isSome →
      List.find? (fun q => q.id == pid)
        (l.map (fun q => if q.id == pid then x else q)) = some x := by
  intro l
  induction l with
  | nil => simp
  | cons a l ih =>
    intro h
    by_cases ha : (a.id == pid) = true
    · rw [List.map_cons]
      show List.find? _ ((if (a.id == pid) = true then x else a) :: _) = some x
      rw [if_pos ha]
      exact List.find?_cons_of_pos _ hx
    · rw [List.map_cons]
      show List.find? _ ((if (a.id == pid) = true then x else a) :: _) = some x
      rw [if_neg ha]
      rw [List.find?_cons_of_neg _ (by simpa using ha)]
      apply ih
      rwa [List.find?_cons_of_neg _ (by simpa using ha)] at h

/-- C3: `PostCRUD.update_post` on a missing id returns absent with no
side effect; on an existing post it overwrites exactly the supplied
fields, leaves every other column and every other table unchanged, and
returns the refreshed row, retrievable under its id, whose update
timestamp is ≥ its previous value (it equals the commit tick when a
field was supplied, and is untouched when the patch is empty, since no
UPDATE is issued then). -/
theorem update_post_contract (db : DB) (now pid : Nat) (k : PostPatch) :
    (get_post db pid = none → update_post db now pid k = .ok (none, db)) ∧
    (∀ p, get_post db pid = some p → p.updated_at ≤ now →
      ∀ p' db', update_post db now pid k = .ok (some p', db') →
        p'.title = k.title.getD p.title ∧
        p'.slug = k.slug.getD p.slug ∧
        p'.content = k.content.getD p.content ∧
        p'.summary = k.summary.getD p.summary ∧
        p'.is_published = k.is_published.getD p.is_published ∧
        p'.published_at = k.published_at.getD p.published_at ∧
        p'.view_count = k.view_count.getD p.view_count ∧
        p'.author_id = k.author_id.getD p.author_id ∧
        p'.id = p.id ∧ p'.created_at = p.created_at ∧
        p.updated_at ≤ p'.updated_at ∧
        (k.isEmpty = true → p'.updated_at = p.updated_at) ∧
        get_post db' pid = some p' ∧
        db'.users = db.users ∧ db'.tags = db.tags ∧
        db'.comments = db.comments ∧ db'.post_tags = db.post_tags) := by
  constructor
  · intro h
    unfold update_post
    rw [h]
  · intro p hp hmono p' db' h
    have hpid : (p.id == pid) = true := by
      have := List.find?_some hp
      simpa using this
    have hps : (List.find? (fun q => q.id == pid) db.posts).isSome := by
      unfold get_post at hp
      simp [hp]
    unfold update_post at h
    rw [hp] at h
    dsimp only at h
    by_cases hemp : k.isEmpty = true
    · rw [if_pos hemp] at h
      split at h
      · exact absurd h (by simp)
      · simp only [Except.ok.injEq, Prod.mk.injEq, Option.some.injEq] at h
        obtain ⟨hp', hdb⟩ := h
        subst hdb
        subst hp'
        exact ⟨rfl, rfl, rfl, rfl, rfl, rfl, rfl, rfl, rfl, rfl,
          Nat.le_refl _, fun _ => rfl,
          find?_posts_update pid (applyPostPatch p k) hpid db.posts hps,
          rfl, rfl, rfl, rfl⟩
    · rw [if_neg hemp] at h
      split at h
      · exact absurd h (by simp)
      · simp only [Except.ok.injEq, Prod.mk.injEq, Option.some.injEq] at h
        obtain ⟨hp', hdb⟩ := h
        subst hdb
        subst hp'
        exact ⟨rfl, rfl, rfl, rfl, rfl, rfl, rfl, rfl, rfl, rfl,
          hmono, fun habs => absurd habs hemp,
          find?_posts_update pid { applyPostPatch p k with updated_at := now }
            hpid db.posts hps, rfl, rfl, rfl, rfl⟩

/-- The refreshed post after updating the sample post's title. -/
def updatedPost : Post :=
  { samplePost with title := "New", updated_at := 30 }

/-- The sample store after updating the sample post's title. -/
def updatedDB : DB :=
  { sampleDB with posts := [updatedPost] }

/-- The partial patch supplying only a new title. -/
def titlePatch : PostPatch := { title := some "New" }

/-- C3 witness: on the sample store, updating a missing id is an absent
no-op, and updating post 1's title overwrites exactly that field,
advances the update timestamp, and round-trips through `get_post`. -/
theorem update_post_contract_witness :
    update_post sampleDB 30 99 titlePatch = .ok (none, sampleDB) ∧
    updatedPost.title = titlePatch.title.getD samplePost.title ∧
    updatedPost.content = titlePatch.content.getD samplePost.content ∧
    samplePost.updated_at ≤ updatedPost.updated_at ∧
    get_post updatedDB 1 = some updatedPost ∧
    updatedDB.comments = sampleDB.comments := by
  have h0 := (update_post_contract sampleDB 30 99 titlePatch).1 (by rfl)
  have h := (update_post_contract sampleDB 30 1 titlePatch).2
    samplePost (by rfl) (by decide) updatedPost updatedDB (by rfl)
  exact ⟨h0, h.1, h.2.2.1, h.2.2.2.2.2.2.2.2.2.2.1,
    h.2.2.2.2.2.2.2.2.2.2.2.2.1, h.2.2.2.2.2.2.2.2.2.2.2.2.2.2.2.1⟩

/-- C7: creating a second user with an email already present fails with
the storage layer's constraint violation at commit time (the CRUD layer
neither pre-validates nor catches it), leaves the store unchanged, and
the first user remains retrievable by id and by email. -/
theorem duplicate_email_contract (db : DB) (now now2 : Nat)
    (un em pw : String) (kw : UserKwargs) (u1 : User) (db1 : DB)
    (hwf : db.wf) (h1 : create_user db now un em pw kw = .ok (u1, db1)) :
    (∀ un2 pw2 kw2,
      create_user db1 now2 un2 em pw2 kw2 = .error .integrityError) ∧
    get_user db1 u1.id = some u1 ∧
    get_user_by_email db1 em = some u1 := by
  obtain ⟨-, -, -, -, hbu, -, -, -, -⟩ := hwf
  unfold create_user at h1
  dsimp only at h1
  split at h1
  · exact absurd h1 (by simp)
  · rename_i hviol
    simp only [Except.ok.injEq, Prod.mk.injEq] at h1
    obtain ⟨hu, hdb⟩ := h1
    have hviolf : userInsertViolation db (mkUserRow db now un em pw kw)
        = false := by
      revert hviol
      cases userInsertViolation db (mkUserRow db now un em pw kw) <;> simp
    have hviol' : ∀ v ∈ db.users,
        (v.username == un || v.email == em) = false := by
      simp only [userInsertViolation, mkUserRow, List.any_eq_false] at hviolf
      intro v hv
      have hvf := hviolf v hv
      revert hvf
      cases v.username == un <;> cases v.email == em <;> simp
    refine ⟨?_, ?_, ?_⟩
    · intro un2 pw2 kw2
      unfold create_user
      dsimp only
      have hv2 : userInsertViolation db1 (mkUserRow db1 now2 un2 em pw2 kw2)
          = true := by
        subst hdb
        simp only [userInsertViolation, mkUserRow, List.any_append]
        apply Bool.or_eq_true_iff.mpr
        right
        subst hu
        simp [mkUserRow]
      rw [hv2]
      simp
    · subst hdb
      simp only [get_user]
      rw [find?_append_eq_right]
      · subst hu; simp
      · intro v hv
        have := hbu v hv
        subst hu
        simp only [mkUserRow, beq_eq_false_iff_ne, ne_eq]
        omega
    · subst hdb
      simp only [get_user_by_email]
      rw [find?_append_eq_right]
      · subst hu; simp [mkUserRow]
      · intro v hv
        have := hviol' v hv
        subst hu
        simp only [Bool.or_eq_false_iff] at this
        exact this.2

/-- C7 witness: after creating "alice" on the sample store, creating a
second user with the same email fails with the constraint violation and
"alice" stays retrievable by id and by email. -/
theorem duplicate_email_contract_witness :
    create_user aliceDB 21 "alice2" "alice@example.com" "x" {} =
      .error .integrityError ∧
    get_user aliceDB createdAlice.id = some createdAlice ∧
    get_user_by_email aliceDB "alice@example.com" = some createdAlice := by
  have h := duplicate_email_contract sampleDB 20 21 "alice"
    "alice@example.com" "pw" {} createdAlice aliceDB (by decide) (by rfl)
  exact ⟨h.1 "alice2" "x" {}, h.2.1, h.2.2⟩

/-- Each per-table line triple contributes its head to a sublist: the
table-naming comments appear in the output in table order. -/
theorem map_head_sublist_flatMap (dialect : String) :
    ∀ l : List SchemaTable,
      (l.map (fun t => "-- Table: " ++ t.name)).Sublist
        (l.flatMap (tableLines dialect)) := by
  intro l
  induction l with
  | nil => simp
  | cons a l ih =>
    simp only [List.map_cons, List.flatMap_cons, tableLines,
      List.cons_append, List.nil_append]
    exact List.Sublist.cons₂ _
      ((ih.trans (List.sublist_cons_self "" _)).trans
        (List.sublist_cons_self _ _))

/-- Any member's contribution can be isolated inside a `flatMap`. -/
theorem flatMap_mem_decomp {α β} (g : α → List β) :
    ∀ (l : List α), ∀ t ∈ l, ∃ l₁ l₂, l.flatMap g = l₁ ++ (g t ++ l₂) := by
  intro l
  induction l with
  | nil => intro t ht; exact absurd ht (List.not_mem_nil t)
  | cons a l ih =>
    intro t ht
    rcases List.mem_cons.mp ht with h | h
    · exact ⟨[], l.flatMap g, by rw [h]; simp⟩
    · obtain ⟨l₁, l₂, hl⟩ := ih t h
      exact ⟨g a ++ l₁, l₂, by simp [hl]⟩

/-- C8 (amended): the DDL statement list opens with the header comment
lines (including the name-sorted table listing); for the PostgreSQL
dialect only, the `CREATE SEQUENCE` statements for truthy-autoincrement
columns without a default come next, BEFORE the table section; then the
tables, enumerated in the registry's deterministic `sorted_tables`
order, each naming comment immediately followed by the compiled
`CREATE TABLE` statement; then the index statements grouped under the
`-- Indexes` heading. -/
theorem schema_ddl_structure (meta : SchemaMeta) (d g : String) :
    get_dialect_ddl meta d g =
      ["-- SQLAlchemy Schema Dump", "-- Generated: " ++ g,
       "-- Dialect: " ++ d,
       "-- Tables: " ++ joinComma (sortStrings meta.tableNames), ""]
      ++ (if d = "postgresql"
          then meta.sortedTables.flatMap seqLinesForTable else [])
      ++ "-- Tables" :: meta.sortedTables.flatMap (tableLines (resolveDialect d))
      ++ (if (indexPairs meta.sortedTables).isEmpty then [] else
          "-- Indexes" ::
            (indexPairs meta.sortedTables).flatMap
              (indexEntryLines (resolveDialect d))) ∧
    (meta.sortedTables.map (fun t => "-- Table: " ++ t.name)).Sublist
      (get_dialect_ddl meta d g) ∧
    (∀ t ∈ meta.sortedTables, ∃ l₁ l₂,
      get_dialect_ddl meta d g =
        l₁ ++ ("-- Table: " ++ t.name) ::
          (fmtCreate (t.compiledCreate (resolveDialect d)) ++ ";") :: l₂) := by
  have hEq : get_dialect_ddl meta d g =
      ["-- SQLAlchemy Schema Dump", "-- Generated: " ++ g,
       "-- Dialect: " ++ d,
       "-- Tables: " ++ joinComma (sortStrings meta.tableNames), ""]
      ++ (if d = "postgresql"
          then meta.sortedTables.flatMap seqLinesForTable else [])
      ++ "-- Tables" :: meta.sortedTables.flatMap (tableLines (resolveDialect d))
      ++ (if (indexPairs meta.sortedTables).isEmpty then [] else
          "-- Indexes" ::
            (indexPairs meta.sortedTables).flatMap
              (indexEntryLines (resolveDialect d))) := rfl
  refine ⟨hEq, ?_, ?_⟩
  · rw [hEq]
    have h1 := map_head_sublist_flatMap (resolveDialect d) meta.sortedTables
    exact ((h1.trans (List.sublist_cons_self "-- Tables" _)).trans
      (List.sublist_append_right _ _)).trans (List.sublist_append_left _ _)
  · intro t ht
    obtain ⟨l₁, l₂, hl⟩ :=
      flatMap_mem_decomp (tableLines (resolveDialect d)) meta.sortedTables t ht
    refine ⟨["-- SQLAlchemy Schema Dump", "-- Generated: " ++ g,
       "-- Dialect: " ++ d,
       "-- Tables: " ++ joinComma (sortStrings meta.tableNames), ""]
      ++ (if d = "postgresql"
          then meta.sortedTables.flatMap seqLinesForTable else [])
      ++ "-- Tables" :: l₁,
      "" :: l₂ ++ (if (indexPairs meta.sortedTables).isEmpty then [] else
          "-- Indexes" ::
            (indexPairs meta.sortedTables).flatMap
              (indexEntryLines (resolveDialect d))), ?_⟩
    rw [hEq, hl]
    simp [tableLines, List.append_assoc]

/-- C8 witness: on the repository's registered tables with the
PostgreSQL dialect, the table-naming comments appear in `sorted_tables`
order and the `users` table's comment is immediately followed by its
compiled `CREATE TABLE` statement. -/
theorem schema_ddl_structure_witness :
    (repoMeta.sortedTables.map (fun t => "-- Table: " ++ t.name)).Sublist
      (get_dialect_ddl repoMeta "postgresql" "TS") ∧
    (∃ l₁ l₂, get_dialect_ddl repoMeta "postgresql" "TS" =
      l₁ ++ ("-- Table: " ++ usersTable.name) ::
        (fmtCreate (usersTable.compiledCreate (resolveDialect "postgresql"))
          ++ ";") :: l₂) := by
  exact ⟨(schema_ddl_structure repoMeta "postgresql" "TS").2.1,
    (schema_ddl_structure repoMeta "postgresql" "TS").2.2 usersTable
      (List.mem_cons_of_mem _ (List.mem_cons_self _ _))⟩

/-- C8 counterexample: on the repository's registered tables with the
PostgreSQL dialect, (a) a `CREATE SEQUENCE` statement appears at line 6
of the output while the `-- Indexes` heading appears at line 93 — the
sequence statements precede the index section (indeed the whole table
section), contradicting the claimed order (tables, then indexes, then
sequences); and (b) the table section enumerates `tags` (line 78)
before `comments` (line 87) although `comments` sorts before `tags` by
name — the enumeration follows `sorted_tables` dependency order, not
the claimed stable sorted-name order. -/
theorem schema_ddl_order_counterexample :
    ((get_dialect_ddl repoMeta "postgresql" "TS").findIdx?
      (fun l => l == "CREATE SEQUENCE IF NOT EXISTS tags_id_seq;") = some 6 ∧
     (get_dialect_ddl repoMeta "postgresql" "TS").findIdx?
      (fun l => l == "-- Indexes") = some 93 ∧
     6 < 93) ∧
    ((get_dialect_ddl repoMeta "postgresql" "TS").findIdx?
      (fun l => l == "-- Table: tags") = some 78 ∧
     (get_dialect_ddl repoMeta "postgresql" "TS").findIdx?
      (fun l => l == "-- Table: comments") = some 87 ∧
     78 < 87 ∧ sortStrings ["tags", "comments"] = ["comments", "tags"]) := by
  exact ⟨⟨by rfl, by rfl, by decide⟩, by rfl, by rfl, by decide, by rfl⟩


/-- C9 (amended, first part): `run_pg_dump` converts a non-zero exit or
an expiry of its bounded 30-second wait into `(False, "")` (no retry),
upon which `validate_and_dump` returns exit code 1 and writes no file;
`dump_with_testcontainer` likewise returns `None` and writes no file on
a non-zero exit, but its `subprocess.run` calls (and
`dump_with_running_container`'s) pass no `timeout`, so only the
`validate_and_dump` invocation uses a bounded wait. -/
theorem dump_failure_contract :
    (∀ k s e, k ≠ 0 → run_pg_dump (.completed k s e) = (false, "")) ∧
    run_pg_dump .expired = (false, "") ∧
    (∀ o ts g, (run_pg_dump o).1 = false →
      validate_and_dump_tail o ts g = (1, [])) ∧
    (∀ cid db, (runPgDumpCmd cid db).timeoutSeconds = some 30) ∧
    (∀ k s ts g, k ≠ 0 → dump_with_testcontainer k s ts g = (none, [])) ∧
    (∀ cid u db, (dumpWithTestcontainerCmd cid u db).timeoutSeconds = none) ∧
    dumpWithRunningContainerCmd.timeoutSeconds = none := by
  refine ⟨?_, rfl, ?_, fun _ _ => rfl, ?_, fun _ _ _ => rfl, rfl⟩
  · intro k s e hk
    cases k with
    | zero => exact absurd rfl hk
    | succ n => rfl
  · intro o ts g h
    simp [validate_and_dump_tail, h]
  · intro k s ts g hk
    unfold dump_with_testcontainer
    rw [if_neg hk]

/-- C9 witness: a non-zero exit and a timeout each yield the failure
result with no file written, and the `validate_and_dump` invocation
carries the 30-second bound. -/
theorem dump_failure_contract_witness :
    run_pg_dump (.completed 1 "boom" "err") = (false, "") ∧
    validate_and_dump_tail .expired "20260101_000000" "G" = (1, []) ∧
    (runPgDumpCmd "abc123def456" "test").timeoutSeconds = some 30 ∧
    dump_with_testcontainer 1 "out" "20260101_000000" "G" = (none, []) := by
  exact ⟨dump_failure_contract.1 1 "boom" "err" (by decide),
    dump_failure_contract.2.2.1 .expired "20260101_000000" "G" rfl,
    dump_failure_contract.2.2.2.1 "abc123def456" "test",
    dump_failure_contract.2.2.2.2.1 1 "out" "20260101_000000" "G" (by decide)⟩

/-- C9 counterexample: not every invocation of the external dump binary
passes a bounded wait — the `pg_dump_helper` invocations
(`dump_with_testcontainer`, `dump_with_running_container`) pass no
`timeout` to `subprocess.run`. -/
theorem dump_timeout_counterexample :
    ¬(∀ c ∈ dumpInvocations, c.timeoutSeconds.isSome = true) := by
  intro h
  have := h (dumpWithTestcontainerCmd "cid" "test" "test")
    (by simp [dumpInvocations])
  simp [dumpWithTestcontainerCmd] at this

end SqlAlchemy
